import Mathlib

/-!
Shallow embedding of the gemini-code-reviewer webhook handlers.

The repository contains four variants of one serverless handler:
`src/api/webhook.js` and `src/unnamed/part_000` (a minimal handler that
answers 202 up front, checks the signature with a plain `!==` string
comparison gated on `NODE_ENV === 'production'`, and exits silently), and
`src/unnamed/part_001` / `src/unnamed/part_002` (a full pipeline with
`verifySignature` via `crypto.timingSafeEqual`, `validatePayload`, a
`MAX_DIFF_SIZE` truncation, deep validation of the Gemini response and a
fallback review comment).

JavaScript strings are modelled as Lean `String` / `List Char`; the HMAC
hex digest `crypto.createHmac("sha256", secret).update(m).digest("hex")`
is treated as an uninterpreted parameter `hmacHex : String → String →
String`, since no claim depends on the internals of SHA-256, only on what
the code feeds to it and how the result is compared.  JavaScript
truthiness on the optional payload fields is modelled explicitly
(`undefined`/missing ↦ `none`, and `""` and `0` are falsy).
-/

/-- Truthiness of an optional JS string: `undefined`, `null` and `""` are
falsy, every other string is truthy. -/
def jsTruthyStr : Option String → Bool
  | none => false
  | some s => !s.isEmpty

/-- Truthiness of an optional JS number restricted to naturals: missing and
`0` are falsy. -/
def jsTruthyNat : Option Nat → Bool
  | none => false
  | some n => n != 0

/-- Whitespace recognizer for the fragment of JS `String.prototype.trim`
relevant here (space, tab, newline, carriage return). -/
def jsWhitespace (c : Char) : Bool :=
  c = ' ' || c = '\t' || c = '\n' || c = '\r'

/-- Trim of a character list: drop whitespace from both ends, as JS
`trim()` does. -/
def trimChars (l : List Char) : List Char :=
  ((l.dropWhile jsWhitespace).reverse.dropWhile jsWhitespace).reverse

/-- JS `s.trim()` on a Lean string. -/
def jsTrim (s : String) : String :=
  String.mk (trimChars s.data)

/-- A `base`/`head` object of the webhook payload: `\x7b sha \x7d`. -/
structure PrRef where
  sha : Option String
deriving DecidableEq

/-- The `pull_request` object of the webhook payload. -/
structure PullRequest where
  number : Option Nat
  base : Option PrRef
  head : Option PrRef
  title : Option String
  body : Option String
deriving DecidableEq

/-- The `repository.owner` object. -/
structure RepoOwner where
  login : Option String
deriving DecidableEq

/-- The `repository` object of the webhook payload. -/
structure Repository where
  name : Option String
  owner : Option RepoOwner
deriving DecidableEq

/-- The parsed JSON body `req.body` of the webhook request, with the fields
the handlers read. -/
structure WebhookBody where
  action : Option String
  pull_request : Option PullRequest
  repository : Option Repository
deriving DecidableEq

/-- The normalized context `validatePayload` returns on success
(src/unnamed/part_001 lines 113-120). -/
structure PayloadCtx where
  owner : String
  repo : String
  prNumber : Nat
  baseSha : String
  headSha : String
  action : Option String
deriving DecidableEq

/-- The validator of src/unnamed/part_001 lines 61-121 (`validatePayload`).
Each failing check logs the message carried here in the `Except.error`
and returns `null`; the checks run in source order, so the error names the
first missing field.  The JS falsiness of `0` and `""` is preserved. -/
def validatePayload : Option WebhookBody → Except String PayloadCtx
  | none => .error "Request body is missing"
  | some body =>
    match body.pull_request, body.repository with
    | none, _ => .error "pull_request object missing from payload"
    | some _, none => .error "repository object missing from payload"
    | some pr, some rep =>
      if !jsTruthyStr (rep.owner.bind RepoOwner.login) then
        .error "repository.owner.login missing from payload"
      else if !jsTruthyStr rep.name then
        .error "repository.name missing from payload"
      else if !jsTruthyNat pr.number then
        .error "pull_request.number missing from payload"
      else if !jsTruthyStr (pr.base.bind PrRef.sha) then
        .error "pull_request.base.sha missing from payload"
      else if !jsTruthyStr (pr.head.bind PrRef.sha) then
        .error "pull_request.head.sha missing from payload"
      else
        .ok
          { owner := (rep.owner.bind RepoOwner.login).getD ""
            repo := rep.name.getD ""
            prNumber := pr.number.getD 0
            baseSha := (pr.base.bind PrRef.sha).getD ""
            headSha := (pr.head.bind PrRef.sha).getD ""
            action := body.action }

/-- Node's `crypto.timingSafeEqual(a, b)` on byte buffers rendered as
character lists: it throws (`Except.error`) when the buffer lengths
differ, and otherwise reports whether the buffers are equal, inspecting
every position. -/
def timingSafeEqual (a b : List Char) : Except Unit Bool :=
  if a.length = b.length then .ok (a = b) else .error ()

/-- The `verifySignature` helper of src/unnamed/part_001 lines 124-148:
missing header returns `false`; otherwise the header is compared with
`"sha256=" ++ hmacHex secret bodyStr` via `timingSafeEqual`, whose
length-mismatch exception propagates (`Except.error`).  `bodyStr` is the
string the code hashes, namely `JSON.stringify(req.body)`. -/
def verifySignature (hmacHex : String → String → String) (secret bodyStr : String)
    (sigHeader : Option String) : Except Unit Bool :=
  match sigHeader with
  | none => .ok false
  | some sig =>
    let expected := "sha256=" ++ hmacHex secret bodyStr
    timingSafeEqual sig.data expected.data

/-- The inline signature gate of src/api/webhook.js lines 16-22: the
request is let through unless `NODE_ENV === 'production'` and the header
differs (by JS `!==`) from the expected digest string.  A missing header
(`undefined !== string`) counts as a mismatch. -/
def legacyAccepts (hmacHex : String → String → String) (production : Bool)
    (secret bodyStr : String) (sigHeader : Option String) : Bool :=
  let expected := "sha256=" ++ hmacHex secret bodyStr
  let mismatch := match sigHeader with
    | none => true
    | some s => s != expected
  !(production && mismatch)

/-- The inbound request as the handler sees it: the raw body bytes as
delivered on the wire, the parsed JSON body, and the two headers.  The
code never reads `rawBody`; it is carried here to state claims about it. -/
structure Envelope where
  rawBody : String
  body : WebhookBody
  signatureHeader : Option String
  eventType : Option String

/-- The expected-signature computation shared by all four handler
variants (src/api/webhook.js line 17, src/unnamed/part_001 lines 133-134):
`"sha256=" + hmacHex(secret, JSON.stringify(req.body))`.  `stringify` is
the (deterministic) `JSON.stringify` serialization of the parsed body;
the computation is a function of the parsed body only. -/
def expectedSignatureOf (hmacHex : String → String → String)
    (stringify : WebhookBody → String) (secret : String) (e : Envelope) : String :=
  "sha256=" ++ hmacHex secret (stringify e.body)

/-- Result of the signature stage of src/unnamed/part_001 lines 168-177,
including the handler's outer `catch` (lines 454-457): an exception thrown
by `verifySignature` is converted to the 500 internal-error response. -/
inductive AuthResult where
  | authenticated
  | unauthorized (status : Nat) (message : String)
  | internalError (status : Nat) (message : String)
deriving DecidableEq

/-- The signature stage of src/unnamed/part_001: verification runs when
`NODE_ENV === 'production'` or a `WEBHOOK_SECRET` is set; a `false` result
yields the 401 response, a thrown length-mismatch lands in the outer
catch, which sets the 500 internal-error response. -/
def authStage (hmacHex : String → String → String) (production secretSet : Bool)
    (secret bodyStr : String) (sigHeader : Option String) : AuthResult :=
  if production || secretSet then
    match verifySignature hmacHex secret bodyStr sigHeader with
    | .error _ => .internalError 500 "Internal server error"
    | .ok false => .unauthorized 401 "Unauthorized - Invalid signature"
    | .ok true => .authenticated
  else
    .authenticated

/-- Result of the classification/normalization stages (steps 3-5 of
src/unnamed/part_001, lines 179-204): either a terminal HTTP response or
the validated context handed to the rest of the pipeline. -/
inductive ClassifyResult where
  | response (status : Nat) (message : String)
  | proceed (ctx : PayloadCtx)
deriving DecidableEq

/-- Steps 3-5 of src/unnamed/part_001: a non-`pull_request` event is
ignored with 200; then the payload is validated (invalid ⇒ 400); then an
action outside `["opened", "synchronize"]` is ignored with 200; otherwise
the pipeline proceeds with the validated context. -/
def pipelineClassify (eventType : Option String) (reqBody : Option WebhookBody) :
    ClassifyResult :=
  if eventType = some "pull_request" then
    match validatePayload reqBody with
    | .error _ => .response 400 "Bad Request - Invalid payload structure"
    | .ok payload =>
      if payload.action = some "opened" ∨ payload.action = some "synchronize" then
        .proceed payload
      else
        .response 200 "Event ignored - action not relevant"
  else
    .response 200 "Event ignored - not a pull request"

/-- The diff size cap of src/unnamed/part_001 line 280. -/
def MAX_DIFF_SIZE : Nat := 100000

/-- The literal truncation marker appended at src/unnamed/part_001
line 283. -/
def truncationMarker : List Char := "\n\n[Diff truncated due to size limit]".data

/-- The size check of src/unnamed/part_001 lines 281-284: a diff longer
than `MAX_DIFF_SIZE` is cut to its first `MAX_DIFF_SIZE` characters
(`substring(0, MAX_DIFF_SIZE)`) and the marker is appended. -/
def boundDiff (diff : List Char) : List Char :=
  if diff.length > MAX_DIFF_SIZE then diff.take MAX_DIFF_SIZE ++ truncationMarker
  else diff

/-- Result of the diff-content stage: either the terminal empty-diff
response or the payload handed on to the review synthesizer (the Gemini
call). -/
inductive DiffStage where
  | emptyDiff (status : Nat) (message : String)
  | review (payload : List Char)
deriving DecidableEq

/-- Steps 8-9 of src/unnamed/part_001 (lines 272-284): a falsy or
whitespace-only diff terminates with the 200 "No changes to review"
response before any model call; otherwise the (possibly truncated) diff
is what the synthesizer receives. -/
def processDiff (diff : List Char) : DiffStage :=
  if diff = [] ∨ trimChars diff = [] then .emptyDiff 200 "No changes to review"
  else .review (boundDiff diff)

/-- One `part` of a Gemini candidate's content. -/
structure GeminiPart where
  text : Option String
deriving DecidableEq

/-- The `content` object of a Gemini candidate. -/
structure GeminiContent where
  parts : Option (List GeminiPart)
deriving DecidableEq

/-- One candidate of a Gemini response. -/
structure GeminiCandidate where
  content : Option GeminiContent
deriving DecidableEq

/-- The body `geminiResponse.data` of a Gemini response. -/
structure GeminiData where
  candidates : Option (List GeminiCandidate)
deriving DecidableEq

/-- The response-shape validation of src/unnamed/part_001 lines 385-393:
returns the first candidate's first part's text when every nesting level
is present and the text is truthy (non-empty), and `none` on any of the
listed defects (missing data, missing/empty candidates, missing content,
missing/empty parts, missing or empty text — `!text` is true for `""`). -/
def extractReviewText : Option GeminiData → Option String
  | none => none
  | some d =>
    match d.candidates with
    | none => none
    | some [] => none
    | some (c :: _) =>
      match c.content with
      | none => none
      | some ct =>
        match ct.parts with
        | none => none
        | some [] => none
        | some (p :: _) =>
          match p.text with
          | none => none
          | some t => if t.isEmpty then none else some t

/-- Result of the review-synthesis stage: the 502 invalid-response
outcome, or the comment text that will be posted. -/
inductive GeminiResult where
  | invalid (status : Nat) (message : String)
  | comment (text : String)
deriving DecidableEq

/-- The fixed fallback comment of src/unnamed/part_001 line 410. -/
def fallbackMessage : String :=
  "🧅 **La Cebolla dice:** No se encontraron problemas."

/-- Steps of src/unnamed/part_001 lines 385-411 after the model call: a
failed shape validation yields the 502 "Invalid response from AI service"
response; otherwise `if (!reviewComment || reviewComment.trim() === "")`
substitutes the fixed fallback message for the extracted text. -/
def synthesizeComment (data : Option GeminiData) : GeminiResult :=
  match extractReviewText data with
  | none => .invalid 502 "Invalid response from AI service"
  | some t =>
    if t.isEmpty || (jsTrim t).isEmpty then .comment fallbackMessage
    else .comment t

/-- Comparison-step count of a short-circuiting JS `!==` string comparison
on equal-length strings (src/api/webhook.js line 19): characters are
compared left to right until the first mismatch, so the count reveals the
position of the first differing character. -/
def firstDiffScan : List Char → List Char → Nat
  | a :: as, b :: bs => if a = b then firstDiffScan as bs + 1 else 1
  | _, _ => 0

/-- Comparison-step count of `crypto.timingSafeEqual`
(src/unnamed/part_001 line 136), which XOR-accumulates over every byte
position of the equal-length buffers. -/
def ctCompareSteps : List Char → List Char → Nat
  | _ :: as, _ :: bs => ctCompareSteps as bs + 1
  | _, _ => 0

/-- Step 4 of src/unnamed/part_001 (lines 190-196): a `null` from
`validatePayload` becomes the fixed 400 response with a generic message;
on success the context is passed on unchanged. -/
def normalizeStage (reqBody : Option WebhookBody) : Except (Nat × String) PayloadCtx :=
  match validatePayload reqBody with
  | .error _ => .error (400, "Bad Request - Invalid payload structure")
  | .ok p => .ok p

/-- Left-cancellation of string concatenation, used to transport a digest
inequality through the `"sha256=" ++ ·` framing. -/
theorem stringAppendLeftCancel {a b c : String} (h : a ++ b = a ++ c) : b = c := by
  have hd : (a ++ b).data = (a ++ c).data := congrArg String.data h
  simp only [String.data_append] at hd
  exact congrArg String.mk (List.append_cancel_left hd)

/-- Comparison-step count of the constant-time comparison on equal-length
buffers depends only on the length, never on the contents. -/
theorem ctCompareSteps_const : ∀ a b : List Char, a.length = b.length →
    ctCompareSteps a b = a.length
  | [], [], _ => rfl
  | a :: as, b :: bs, h => by
    simp only [ctCompareSteps, List.length_cons]
    have := ctCompareSteps_const as bs (by simpa using h)
    omega
  | [], _ :: _, h => by simp at h
  | _ :: _, [], h => by simp at h

/-- C1 (counterexample): outside production mode (`NODE_ENV !==
'production'`), the src/api/webhook.js gate accepts a request whose
signature header differs from the computed digest string, so "accepts iff
the digests match byte-for-byte" is false as stated. -/
theorem c1_counterexample :
    legacyAccepts (fun _ _ => "d0") false "secret" "body" (some "bogus") = true ∧
    ("bogus" : String) ≠ "sha256=" ++ "d0" :=
  ⟨rfl, by decide⟩

/-- C1 (amended): in production mode the gate accepts exactly when the
header equals `"sha256=" ++ hmacHex secret body`; hence any change to
payload or secret that changes the digest makes the original signature be
rejected; outside production mode every request is accepted. -/
theorem c1_amended (hmacHex : String → String → String) (secret bodyStr : String)
    (sigHeader : Option String) :
    (legacyAccepts hmacHex true secret bodyStr sigHeader = true ↔
      sigHeader = some ("sha256=" ++ hmacHex secret bodyStr)) ∧
    (∀ secret' bodyStr', hmacHex secret' bodyStr' ≠ hmacHex secret bodyStr →
      legacyAccepts hmacHex true secret' bodyStr'
        (some ("sha256=" ++ hmacHex secret bodyStr)) = false) ∧
    legacyAccepts hmacHex false secret bodyStr sigHeader = true := by
  refine ⟨?_, ?_, ?_⟩
  · cases sigHeader with
    | none => simp [legacyAccepts]
    | some s => simp [legacyAccepts]
  · intro secret' bodyStr' hne
    simp only [legacyAccepts, Bool.true_and, Bool.not_eq_false', bne_iff_ne, ne_eq]
    intro h
    exact hne (stringAppendLeftCancel h).symm
  · simp [legacyAccepts]

/-- C1 (witness for the amended theorem): a concrete production-mode
acceptance of the matching signature and rejection of a mismatched one. -/
theorem c1_witness :
    legacyAccepts (fun s b => s ++ b) true "k" "m" (some ("sha256=" ++ "km")) = true ∧
    legacyAccepts (fun s b => s ++ b) true "k" "mX" (some ("sha256=" ++ "km")) = false :=
  ⟨((c1_amended (fun s b => s ++ b) "k" "m" (some ("sha256=" ++ "km"))).1).mpr rfl,
   (c1_amended (fun s b => s ++ b) "k" "m" (some ("sha256=" ++ "km"))).2.1 "k" "mX"
     (by decide)⟩

/-- C2: the short-circuiting `!==` comparison of src/api/webhook.js
performs a different number of character comparisons on two equal-length
pairs that differ only in the position of the first mismatch (1 step when
the first characters differ, 4 when only the last of four differs), so
its timing leaks the position of the first differing byte, contrary to
the constant-time requirement the spec states. -/
theorem c2_scan_leaks_position :
    firstDiffScan "abcd".data "zbcd".data = 1 ∧
    firstDiffScan "abcd".data "abcz".data = 4 ∧
    "abcd".data.length = "zbcd".data.length ∧
    "abcd".data.length = "abcz".data.length ∧
    ("abcd" : String) ≠ "zbcd" ∧ ("abcd" : String) ≠ "abcz" := by
  decide

/-- C3: the expected signature of every handler variant is computed from
`JSON.stringify(req.body)`, a function of the parsed body alone, so two
deliveries with the same parsed body get the same expected digest even
when their raw on-the-wire bytes differ — the claim that byte-different,
parse-equal raw bodies yield different expected digests is false. -/
theorem c3_digest_ignores_raw (hmacHex : String → String → String)
    (stringify : WebhookBody → String) (secret : String) (e1 e2 : Envelope)
    (hbody : e1.body = e2.body) (_hraw : e1.rawBody ≠ e2.rawBody) :
    expectedSignatureOf hmacHex stringify secret e1 =
      expectedSignatureOf hmacHex stringify secret e2 := by
  simp [expectedSignatureOf, hbody]

/-- C3 (witness): two envelopes whose raw bodies differ by one space but
parse to the same body receive the same expected signature. -/
theorem c3_witness :
    expectedSignatureOf (fun _ m => m) (fun _ => "st") "sec"
        ⟨"a: 1", ⟨none, none, none⟩, none, none⟩ =
      expectedSignatureOf (fun _ m => m) (fun _ => "st") "sec"
        ⟨"a:1", ⟨none, none, none⟩, none, none⟩ :=
  c3_digest_ignores_raw (fun _ m => m) (fun _ => "st") "sec" _ _ rfl (by decide)

/-- C10: when the signature header is present but its byte length differs
from that of the expected digest string, `crypto.timingSafeEqual` throws,
the outer catch of src/unnamed/part_001 turns this into the 500
internal-error response, and no 401 is produced. -/
theorem c10_length_mismatch_500 (hmacHex : String → String → String)
    (secretSet : Bool) (secret bodyStr sig : String)
    (h : sig.data.length ≠ ("sha256=" ++ hmacHex secret bodyStr).data.length) :
    authStage hmacHex true secretSet secret bodyStr (some sig) =
      .internalError 500 "Internal server error" := by
  have hv : verifySignature hmacHex secret bodyStr (some sig) = .error () := by
    simp only [verifySignature, timingSafeEqual]
    exact if_neg h
  simp [authStage, hv]

/-- C10 (witness): a 3-byte header against a 71-byte expected digest
string ends in the 500 internal-error response. -/
theorem c10_witness :
    authStage
      (fun _ _ =>
        "0000000000000000000000000000000000000000000000000000000000000000")
      true false "s" "b" (some "abc") =
      .internalError 500 "Internal server error" :=
  c10_length_mismatch_500 _ false "s" "b" "abc" (by decide)

/-- C4 (counterexample): for the pair (event-type = `pull_request`,
action = `opened`) — a combination the claim says must proceed — a body
whose `pull_request` object is missing makes the pipeline answer 400
(ValidationError), neither proceeding nor yielding a 200 Ignore, because
payload validation runs between the two classifier checks. -/
theorem c4_counterexample :
    pipelineClassify (some "pull_request")
        (some ⟨some "opened", none, none⟩) =
      .response 400 "Bad Request - Invalid payload structure" := rfl

/-- C4 (amended): the pipeline proceeds past classification iff the
event-type is `pull_request`, the payload validates, and the validated
action is `opened` or `synchronize`; a non-`pull_request` event is
ignored with 200, and a `pull_request` event whose payload validates but
whose action is irrelevant is ignored with 200; a `pull_request` event
with an invalid payload instead yields the 400 response. -/
theorem c4_amended (eventType : Option String) (reqBody : Option WebhookBody) :
    ((∃ ctx, pipelineClassify eventType reqBody = .proceed ctx) ↔
      (eventType = some "pull_request" ∧
        ∃ ctx, validatePayload reqBody = .ok ctx ∧
          (ctx.action = some "opened" ∨ ctx.action = some "synchronize"))) ∧
    (eventType ≠ some "pull_request" →
      pipelineClassify eventType reqBody =
        .response 200 "Event ignored - not a pull request") ∧
    (∀ ctx, eventType = some "pull_request" → validatePayload reqBody = .ok ctx →
      ¬(ctx.action = some "opened" ∨ ctx.action = some "synchronize") →
      pipelineClassify eventType reqBody =
        .response 200 "Event ignored - action not relevant") := by
  refine ⟨?_, ?_, ?_⟩
  · by_cases het : eventType = some "pull_request"
    · subst het
      cases hv : validatePayload reqBody with
      | error e => simp [pipelineClassify, hv]
      | ok ctx =>
        by_cases ha : ctx.action = some "opened" ∨ ctx.action = some "synchronize"
        · constructor
          · intro _
            exact ⟨rfl, ctx, rfl, ha⟩
          · intro _
            exact ⟨ctx, by simp [pipelineClassify, hv, ha]⟩
        · constructor
          · rintro ⟨c, hc⟩
            rw [show pipelineClassify (some "pull_request") reqBody =
                .response 200 "Event ignored - action not relevant" from by
                  simp [pipelineClassify, hv, ha]] at hc
            cases hc
          · rintro ⟨-, c, hc, hca⟩
            injection hc with h
            subst h
            exact absurd hca ha
    · simp [pipelineClassify, het]
  · intro het
    simp [pipelineClassify, het]
  · intro ctx het hv ha
    subst het
    simp [pipelineClassify, hv, ha]

/-- C4 (witness for the amended theorem): a `push` event is ignored with
200, and a valid `pull_request` payload with action `closed` is ignored
with 200. -/
theorem c4_witness :
    pipelineClassify (some "push") none =
      .response 200 "Event ignored - not a pull request" ∧
    pipelineClassify (some "pull_request")
        (some ⟨some "closed",
          some ⟨some 7, some ⟨some "b"⟩, some ⟨some "h"⟩, none, none⟩,
          some ⟨some "r", some ⟨some "o"⟩⟩⟩) =
      .response 200 "Event ignored - action not relevant" :=
  ⟨(c4_amended (some "push") none).2.1 (by decide),
   (c4_amended (some "pull_request")
       (some ⟨some "closed",
         some ⟨some 7, some ⟨some "b"⟩, some ⟨some "h"⟩, none, none⟩,
         some ⟨some "r", some ⟨some "o"⟩⟩⟩)).2.2
     ⟨"o", "r", 7, "b", "h", some "closed"⟩ rfl rfl (by decide)⟩

/-- C5 (counterexample): a diff one character over the limit is truncated
to `MAX_DIFF_SIZE` characters plus the appended marker, so the payload
handed on is strictly longer than `MAX_DIFF_SIZE` — the bound "never
exceeds MAX_DIFF_SIZE" is false as stated. -/
theorem c5_counterexample :
    MAX_DIFF_SIZE < (boundDiff (List.replicate (MAX_DIFF_SIZE + 1) 'a')).length := by
  have hgt : (List.replicate (MAX_DIFF_SIZE + 1) 'a').length > MAX_DIFF_SIZE := by
    rw [List.length_replicate]
    omega
  have hm : 0 < truncationMarker.length := by decide
  unfold boundDiff
  rw [if_pos hgt, List.length_append, List.length_take, List.length_replicate]
  omega

/-- C5 (amended): the payload handed to the synthesizer never exceeds
`MAX_DIFF_SIZE` plus the marker length, and whenever truncation occurred
(input longer than `MAX_DIFF_SIZE`) the payload is exactly the first
`MAX_DIFF_SIZE` characters followed by the literal marker — in
particular it ends with the marker. -/
theorem c5_amended (diff : List Char) :
    (boundDiff diff).length ≤ MAX_DIFF_SIZE + truncationMarker.length ∧
    (MAX_DIFF_SIZE < diff.length →
      boundDiff diff = diff.take MAX_DIFF_SIZE ++ truncationMarker ∧
      truncationMarker.IsSuffix (boundDiff diff)) := by
  constructor
  · by_cases h : MAX_DIFF_SIZE < diff.length
    · simp only [boundDiff, gt_iff_lt, if_pos h, List.length_append, List.length_take]
      omega
    · simp only [boundDiff, gt_iff_lt, if_neg h]
      omega
  · intro h
    have he : boundDiff diff = diff.take MAX_DIFF_SIZE ++ truncationMarker := by
      simp [boundDiff, h]
    exact ⟨he, ⟨diff.take MAX_DIFF_SIZE, he.symm⟩⟩

/-- C5 (witness for the amended theorem): the over-limit diff of the
counterexample is truncated to exactly the first `MAX_DIFF_SIZE`
characters followed by the marker. -/
theorem c5_witness :
    boundDiff (List.replicate (MAX_DIFF_SIZE + 1) 'a') =
      (List.replicate (MAX_DIFF_SIZE + 1) 'a').take MAX_DIFF_SIZE ++
        truncationMarker :=
  ((c5_amended (List.replicate (MAX_DIFF_SIZE + 1) 'a')).2 (by simp)).1

/-- C6: every malformed model response shape listed by the claim —
missing body, missing or empty candidates array, missing content, missing
or empty parts array, or missing first text (the code also counts an
empty-string text here) — makes the synthesis stage answer the 502
"Invalid response from AI service" outcome; `synthesizeComment` is a
total function, so no case is an unhandled crash. -/
theorem c6_malformed_is_upstream_error (d : Option GeminiData)
    (h : d = none ∨
      (∃ g, d = some g ∧ g.candidates = none) ∨
      (∃ g, d = some g ∧ g.candidates = some []) ∨
      (∃ g c cs, d = some g ∧ g.candidates = some (c :: cs) ∧ c.content = none) ∨
      (∃ g c cs ct, d = some g ∧ g.candidates = some (c :: cs) ∧
        c.content = some ct ∧ ct.parts = none) ∨
      (∃ g c cs ct, d = some g ∧ g.candidates = some (c :: cs) ∧
        c.content = some ct ∧ ct.parts = some []) ∨
      (∃ g c cs ct p ps, d = some g ∧ g.candidates = some (c :: cs) ∧
        c.content = some ct ∧ ct.parts = some (p :: ps) ∧ p.text = none)) :
    synthesizeComment d = .invalid 502 "Invalid response from AI service" := by
  rcases h with rfl | ⟨g, rfl, hg⟩ | ⟨g, rfl, hg⟩ | ⟨g, c, cs, rfl, hg, hc⟩ |
    ⟨g, c, cs, ct, rfl, hg, hc, hp⟩ | ⟨g, c, cs, ct, rfl, hg, hc, hp⟩ |
    ⟨g, c, cs, ct, p, ps, rfl, hg, hc, hp, ht⟩ <;>
    simp [synthesizeComment, extractReviewText, *]

/-- C6 (witness): a response body whose `candidates` field is absent
yields the 502 outcome. -/
theorem c6_witness :
    synthesizeComment (some ⟨none⟩) =
      .invalid 502 "Invalid response from AI service" :=
  c6_malformed_is_upstream_error (some ⟨none⟩)
    (Or.inr (Or.inl ⟨⟨none⟩, rfl, rfl⟩))

/-- C7 (counterexample): a well-formed response whose first text part is
the empty string does not produce the fallback comment — the truthiness
check in the shape validation classifies it as an invalid response, so
the outcome is the 502 error and nothing is published. -/
theorem c7_counterexample :
    synthesizeComment (some ⟨some [⟨some ⟨some [⟨some ""⟩]⟩⟩]⟩) =
      .invalid 502 "Invalid response from AI service" := rfl

/-- C7 (amended): whenever the shape validation extracts a text (hence a
non-empty one) that trims to the empty string, the comment to be
published is exactly the fixed fallback message; an empty-string text
instead takes the 502 invalid-response path. -/
theorem c7_whitespace_fallback (d : Option GeminiData) (t : String)
    (hext : extractReviewText d = some t) (hws : (jsTrim t).isEmpty = true) :
    synthesizeComment d = .comment fallbackMessage := by
  simp [synthesizeComment, hext, hws]

/-- C7 (witness for the amended theorem): a response whose text is three
spaces publishes the fallback message. -/
theorem c7_witness :
    synthesizeComment (some ⟨some [⟨some ⟨some [⟨some "   "⟩]⟩⟩]⟩) =
      .comment fallbackMessage :=
  c7_whitespace_fallback _ "   " rfl (by decide)

/-- C8: a diff that trims to the empty string terminates the pipeline
with the 200 "No changes to review" outcome; the `DiffStage.review`
constructor — the only one that carries a payload to the model call — is
not produced, so no model invocation happens. -/
theorem c8_empty_diff_short_circuits (diff : List Char)
    (h : trimChars diff = []) :
    processDiff diff = .emptyDiff 200 "No changes to review" := by
  simp [processDiff, h]

/-- C8 (witness): a whitespace-only diff ends with the empty-diff
outcome. -/
theorem c8_witness :
    processDiff " \n".data = .emptyDiff 200 "No changes to review" :=
  c8_empty_diff_short_circuits " \n".data (by decide)

/-- A truthy optional string is non-empty once defaulted. -/
theorem jsTruthyStr_getD (x : Option String) (h : jsTruthyStr x = true) :
    (x.getD "").isEmpty = false := by
  cases x with
  | none => simp [jsTruthyStr] at h
  | some s => simpa [jsTruthyStr] using h

/-- A truthy optional natural is non-zero once defaulted. -/
theorem jsTruthyNat_getD (x : Option Nat) (h : jsTruthyNat x = true) :
    x.getD 0 ≠ 0 := by
  cases x with
  | none => simp [jsTruthyNat] at h
  | some n => simpa [jsTruthyNat] using h

/-- C9 (counterexample): two bodies whose first missing fields differ
(`pull_request.number` vs `pull_request.base.sha`) both produce the same
fixed 400 response "Bad Request - Invalid payload structure": the
caller-visible ValidationError outcome does not carry the missing field's
name (it appears only in the log message recorded by `validatePayload`). -/
theorem c9_counterexample :
    validatePayload (some (WebhookBody.mk (some "opened")
        (some (PullRequest.mk none (some ⟨some "b"⟩) (some ⟨some "h"⟩) none none))
        (some (Repository.mk (some "r") (some (RepoOwner.mk (some "o"))))))) =
      .error "pull_request.number missing from payload" ∧
    validatePayload (some (WebhookBody.mk (some "opened")
        (some (PullRequest.mk (some 1) none (some ⟨some "h"⟩) none none))
        (some (Repository.mk (some "r") (some (RepoOwner.mk (some "o"))))))) =
      .error "pull_request.base.sha missing from payload" ∧
    normalizeStage (some (WebhookBody.mk (some "opened")
        (some (PullRequest.mk none (some ⟨some "b"⟩) (some ⟨some "h"⟩) none none))
        (some (Repository.mk (some "r") (some (RepoOwner.mk (some "o"))))))) =
      .error (400, "Bad Request - Invalid payload structure") ∧
    normalizeStage (some (WebhookBody.mk (some "opened")
        (some (PullRequest.mk (some 1) none (some ⟨some "h"⟩) none none))
        (some (Repository.mk (some "r") (some (RepoOwner.mk (some "o"))))))) =
      .error (400, "Bad Request - Invalid payload structure") :=
  ⟨rfl, rfl, rfl, rfl⟩

/-- C9 (amended): an invalid body yields the 400 outcome with the fixed
generic message (the first missing field's name lives only in the
`validatePayload` log message); on success the full context — all
required fields present and truthy — is passed on, so no partial context
ever reaches later stages; and when every earlier field is present but
`pull_request.base.sha` is missing, the log message names exactly that
field. -/
theorem c9_amended (reqBody : Option WebhookBody) :
    (∀ msg, validatePayload reqBody = .error msg →
      normalizeStage reqBody = .error (400, "Bad Request - Invalid payload structure")) ∧
    (∀ ctx, validatePayload reqBody = .ok ctx →
      normalizeStage reqBody = .ok ctx ∧
      ctx.owner.isEmpty = false ∧ ctx.repo.isEmpty = false ∧ ctx.prNumber ≠ 0 ∧
      ctx.baseSha.isEmpty = false ∧ ctx.headSha.isEmpty = false) ∧
    (∀ body pr rep, reqBody = some body → body.pull_request = some pr →
      body.repository = some rep →
      jsTruthyStr (rep.owner.bind RepoOwner.login) = true →
      jsTruthyStr rep.name = true → jsTruthyNat pr.number = true →
      jsTruthyStr (pr.base.bind PrRef.sha) = false →
      validatePayload reqBody = .error "pull_request.base.sha missing from payload") := by
  refine ⟨?_, ?_, ?_⟩
  · intro msg hmsg
    simp [normalizeStage, hmsg]
  · intro ctx hctx
    refine ⟨by simp [normalizeStage, hctx], ?_⟩
    cases reqBody with
    | none => simp [validatePayload] at hctx
    | some body =>
      simp only [validatePayload] at hctx
      split at hctx
      · exact Except.noConfusion hctx
      · exact Except.noConfusion hctx
      · split_ifs at hctx with h1 h2 h3 h4 h5
        injection hctx with h
        subst h
        exact ⟨jsTruthyStr_getD _ (by simpa using h1),
          jsTruthyStr_getD _ (by simpa using h2),
          jsTruthyNat_getD _ (by simpa using h3),
          jsTruthyStr_getD _ (by simpa using h4),
          jsTruthyStr_getD _ (by simpa using h5)⟩
  · intro body pr rep hback hpr hrep h1 h2 h3 h4
    subst hback
    simp [validatePayload, hpr, hrep, h1, h2, h3, h4]

/-- C9 (witness for the amended theorem): a body that is complete except
for `pull_request.base.sha` gets the log message naming that field. -/
theorem c9_witness :
    validatePayload (some (WebhookBody.mk (some "synchronize")
        (some (PullRequest.mk (some 5) none (some ⟨some "h"⟩) none none))
        (some (Repository.mk (some "r") (some (RepoOwner.mk (some "o"))))))) =
      .error "pull_request.base.sha missing from payload" :=
  (c9_amended _).2.2 _ _ _ rfl rfl rfl (by decide) (by decide) (by decide) (by decide)
